import Mathlib

/-!
Verification of the Telegram VTU bot's wallet ledger, payment reconciliation
(webhook push path and polling fallback), purchase execution flows, the
Paystack client's retry behaviour, and reference-string parsing.

The JavaScript source is embedded shallowly: monetary amounts are rationals,
JavaScript string keys are Lean `String`s, the Appwrite document store is an
explicit state record, and each asynchronous handler becomes a pure state
transition returning the HTTP response, the new store state, and a trace of
the externally visible effects it performed.
-/

namespace VtuBot

/-- Rounding to two decimal places, as `parseFloat(x.toFixed(2))` does for
the magnitudes this ledger handles (round half away from zero; all values
here are non-negative, so half up). -/
def round2 (q : ℚ) : ℚ := ((⌊q * 100 + 1/2⌋ : ℤ) : ℚ) / 100

/-- Embedding of `DatabaseService.updateWalletBalance` acting on one wallet's
stored balance.  It rejects negative (or NaN, unrepresentable here) amounts,
adds on the exact type string `credit`, subtracts otherwise, rejects a result
that would be negative before writing, and rounds the written balance to two
decimals. -/
def updateWalletBalance (balance amount : ℚ) (ty : String) : Except String ℚ :=
  if amount < 0 then .error ("Invalid userId or amount")
  else
    let newBalance := if ty == "credit" then balance + amount else balance - amount
    if newBalance < 0 then .error ("Insufficient balance")
    else .ok (round2 newBalance)

/-- A caller that catches the thrown error keeps the stored balance unchanged;
on success the store holds the returned balance. -/
def applyOp (b : ℚ) (op : ℚ × String) : ℚ :=
  match updateWalletBalance b op.1 op.2 with
  | .ok b' => b'
  | .error _ => b

/-- A sequence of credit/debit calls applied to a stored balance. -/
def runOps (b : ℚ) (ops : List (ℚ × String)) : ℚ := ops.foldl applyOp b

/-- A transaction document as stored by `DatabaseService.createTransaction`:
the top-level `reference` field is copied from `details.reference`, and the
`details` JSON blob keeps that reference (the only detail field the
reconciliation code reads back). -/
structure Tx where
  id : Nat
  txType : String
  amount : ℚ
  reference : String
  detailsRef : Option String
  status : String
deriving Repr, DecidableEq

/-- The store state visible to the reconciliation engine for one user: the
wallet balance, the user's transactions newest first (Appwrite's
`orderDesc(createdAt)` order), and the next fresh document id. -/
structure DbState where
  balance : ℚ
  txs : List Tx
  nextId : Nat
deriving Repr, DecidableEq

/-- `DatabaseService.findTransactionByReference`: first document whose
top-level `reference` equals the query. -/
def findTransactionByReference (txs : List Tx) (ref : String) : Option Tx :=
  txs.find? (fun t => t.reference == ref)

/-- The poll loop's lookup: `getUserTransactions(user, 10)` (ten newest) and
then the first whose parsed `details.reference` equals the reference. -/
def pollFindTransaction (txs : List Tx) (ref : String) : Option Tx :=
  (txs.take 10).find? (fun t => t.detailsRef == some ref)

/-- `DatabaseService.updateTransaction(id, {status})`: update by document id. -/
def updateTxStatus (txs : List Tx) (i : Nat) (st : String) : List Tx :=
  txs.map (fun t => if t.id == i then { t with status := st } else t)

/-- The `success` credit transaction both reconciliation paths create when no
existing document matches the reference. -/
def mkSuccessTx (i : Nat) (ref : String) (a : ℚ) : Tx :=
  { id := i, txType := ("credit"), amount := a, reference := ref,
    detailsRef := some ref, status := ("success") }

/-- Externally visible side effects of the webhook handler, in program order. -/
inductive Effect where
  | lookupUser
  | lookupTx
  | verifyCall
  | creditWallet
  | writeTx
  | notify
deriving Repr, DecidableEq

/-- Result of one webhook request: HTTP status, response body, store state
after the request, and the effect trace. -/
structure HandlerResult where
  status : Nat
  body : String
  db : DbState
  trace : List Effect
deriving Repr, DecidableEq

/-- Embedding of the `app.post(WEBHOOK_PATH)` handler.  `computedHash` is the
HMAC-SHA512 of the raw body under the secret key (the hash function itself is
external); `sig` is the `x-paystack-signature` header; `amountKobo` is
`data.amount`; `userFound` is whether `getUserByTelegramId` finds the user
parsed from the reference; `verifyStatus` is `verification.data.status`
reported by Paystack. -/
def webhookHandler (computedHash sig event ref : String) (amountKobo : ℚ)
    (userFound : Bool) (verifyStatus : String) (st : DbState) : HandlerResult :=
  if computedHash != sig then
    { status := 401, body := ("Invalid signature"), db := st, trace := [] }
  else if event != ("charge.success") then
    { status := 200, body := ("Event ignored"), db := st, trace := [] }
  else if !userFound then
    { status := 400, body := ("User not found"), db := st, trace := [.lookupUser] }
  else
    let amount := amountKobo / 100
    match findTransactionByReference st.txs ref with
    | some t =>
      if t.status == "success" then
        { status := 200, body := ("Transaction already processed"), db := st,
          trace := [.lookupUser, .lookupTx] }
      else if verifyStatus != ("success") then
        { status := 400, body := ("Payment not successful"), db := st,
          trace := [.lookupUser, .lookupTx, .verifyCall] }
      else
        match updateWalletBalance st.balance amount ("credit") with
        | .error _ =>
          { status := 500, body := ("Internal server error"), db := st,
            trace := [.lookupUser, .lookupTx, .verifyCall] }
        | .ok b' =>
          { status := 200, body := ("Webhook processed"),
            db := { balance := b', txs := updateTxStatus st.txs t.id ("success"),
                    nextId := st.nextId },
            trace := [.lookupUser, .lookupTx, .verifyCall, .creditWallet, .writeTx, .notify] }
    | none =>
      if verifyStatus != ("success") then
        { status := 400, body := ("Payment not successful"), db := st,
          trace := [.lookupUser, .lookupTx, .verifyCall] }
      else
        match updateWalletBalance st.balance amount ("credit") with
        | .error _ =>
          { status := 500, body := ("Internal server error"), db := st,
            trace := [.lookupUser, .lookupTx, .verifyCall] }
        | .ok b' =>
          { status := 200, body := ("Webhook processed"),
            db := { balance := b', txs := mkSuccessTx st.nextId ref amount :: st.txs,
                    nextId := st.nextId + 1 },
            trace := [.lookupUser, .lookupTx, .verifyCall, .creditWallet, .writeTx, .notify] }

/-- Chat notification sent when the poll loop credits the wallet. -/
def fundedMsg (a : ℚ) : String := "Wallet funded successfully with " ++ toString a

/-- Chat notification on an explicitly failed payment. -/
def paymentFailedMsg : String := "Payment failed. Please try again."

/-- Chat notification when polling exhausts its attempts. -/
def timeoutMsg : String :=
  "Payment verification timed out. Please contact support if payment was successful."

/-- Outcome of one tick of the `pollPaymentStatus` interval callback: the
attempt counter after the tick, whether the interval has been cleared, the
store state, whether the session was deleted, and the chat messages sent
during the tick in order. -/
structure PollOut where
  attempts : Nat
  cleared : Bool
  db : DbState
  sessionDeleted : Bool
  msgs : List String
deriving Repr, DecidableEq

/-- Tail of every tick body except the already-processed early return: the
attempt counter is incremented and, when it reaches `maxAttempts`, the
interval is cleared, the timeout notice is sent and the session deleted —
this runs even when the tick itself just succeeded or failed. -/
def pollTickTail (maxAttempts attempts : Nat) (cleared : Bool) (st : DbState)
    (sessionDeleted : Bool) (msgs : List String) : PollOut :=
  let a' := attempts + 1
  if maxAttempts ≤ a' then
    { attempts := a', cleared := true, db := st, sessionDeleted := true,
      msgs := msgs ++ [timeoutMsg] }
  else
    { attempts := a', cleared := cleared, db := st, sessionDeleted := sessionDeleted,
      msgs := msgs }

/-- Embedding of one tick of `pollPaymentStatus`'s interval callback.
`verifyStatus` is what `paystack.verifyPayment` reports this tick; a thrown
ledger error is caught by the tick's `try/catch` and leaves the store
untouched while polling continues. -/
def pollTick (ref : String) (a : ℚ) (maxAttempts : Nat) (verifyStatus : String)
    (attempts : Nat) (st : DbState) : PollOut :=
  if verifyStatus == "success" then
    match pollFindTransaction st.txs ref with
    | some t =>
      if t.status == "success" then
        { attempts := attempts, cleared := true, db := st,
          sessionDeleted := false, msgs := [] }
      else
        match updateWalletBalance st.balance a ("credit") with
        | .error _ => pollTickTail maxAttempts attempts true st false []
        | .ok b' =>
          pollTickTail maxAttempts attempts true
            { balance := b', txs := updateTxStatus st.txs t.id ("success"),
              nextId := st.nextId }
            true [fundedMsg a]
    | none =>
      match updateWalletBalance st.balance a ("credit") with
      | .error _ => pollTickTail maxAttempts attempts true st false []
      | .ok b' =>
        pollTickTail maxAttempts attempts true
          { balance := b', txs := mkSuccessTx st.nextId ref a :: st.txs,
            nextId := st.nextId + 1 }
          true [fundedMsg a]
  else if verifyStatus == "failed" then
    pollTickTail maxAttempts attempts true st true [paymentFailedMsg]
  else
    pollTickTail maxAttempts attempts false st false []

/-- The two racing reconciliation signals of claim C1: a webhook push
delivery for the reference, and a poll tick whose verification succeeded. -/
inductive Signal where
  | push
  | poll
deriving Repr, DecidableEq

/-- Store-state effect of one signal.  A push is the webhook handler run with
a valid signature, a `charge.success` event carrying the amount in kobo, the
owning user found, and Paystack confirming success; a poll is one successful
verification tick (the tick's counter bookkeeping does not touch the store). -/
def signalStep (ref : String) (a : ℚ) (st : DbState) : Signal → DbState
  | .push => (webhookHandler ("h") ("h") ("charge.success") ref (a * 100) true ("success") st).db
  | .poll => (pollTick ref a 30 ("success") 0 st).db

/-- Store state after a whole sequence of signals, processed one at a time. -/
def processSignals (ref : String) (a : ℚ) (sigs : List Signal) (st : DbState) : DbState :=
  sigs.foldl (signalStep ref a) st

/-- A transaction document concerns the reference when either its top-level
`reference` field (webhook lookup key) or its `details.reference`
(poll lookup key) matches. -/
def isRefTx (ref : String) (t : Tx) : Bool :=
  t.reference == ref || t.detailsRef == some ref

/-- Normalized VTPass purchase response: the top-level `code`, the nested
`content?.transactions?.status` (absent when the optional chain hits
`undefined`), and the `response_description`. -/
structure ProviderResult where
  code : String
  txStatus : Option String
  responseDescr : Option String
deriving Repr, DecidableEq

/-- The status every confirm branch computes:
`result.code === "000" && result.content?.transactions?.status === "delivered"
? "success" : "failed"`. -/
def transactionStatusOf (r : ProviderResult) : String :=
  if r.code == "000" && r.txStatus == some ("delivered") then "success" else "failed"

/-- JavaScript `x || "Unknown error"` on the response description: `null`,
`undefined` and the empty string are falsy. -/
def descrOrUnknown (o : Option String) : String :=
  match o with
  | some s => if s == "" then "Unknown error" else s
  | none => "Unknown error"

/-- Outcome of one confirm-stage execute: the wallet balance after the step
(`none` when no wallet document exists), whether the billing provider was
called, the `(type, status, amount)` of the transaction document created (if
any), whether the session was cleared, and the user-facing message. -/
structure ExecResult where
  walletAfter : Option ℚ
  providerCalled : Bool
  recordedTx : Option (String × String × ℚ)
  sessionCleared : Bool
  message : String
deriving Repr, DecidableEq

/-- Insufficient-balance message of the airtime and data branches. -/
def insuffFundMsg : String := "Insufficient balance. Please fund your wallet."

/-- Insufficient-balance message of the electricity and TV branches. -/
def insuffShortMsg : String := "Insufficient balance."

/-- Generic reset message of the outer catch handler. -/
def genericResetMsg : String :=
  "Something went wrong. The process has been reset. Please try again from the menu."

/-- Success and failure messages per flow. -/
def airtimeOkMsg (phone network : String) : String :=
  "Airtime sent to " ++ phone ++ " on " ++ network
def airtimeFailMsg (r : ProviderResult) : String :=
  "Airtime purchase failed: " ++ descrOrUnknown r.responseDescr
def dataOkMsg (phone network plan : String) : String :=
  "Data sent to " ++ phone ++ " on " ++ network ++ " (" ++ plan ++ ")"
def dataFailMsg (r : ProviderResult) : String :=
  "Data purchase failed: " ++ descrOrUnknown r.responseDescr
def elecOkMsg (meter : String) : String := "Electricity paid for meter " ++ meter
def elecFailMsg (r : ProviderResult) : String :=
  "Electricity payment failed: " ++ descrOrUnknown r.responseDescr
def tvOkMsg (card : String) : String := "TV subscription completed for " ++ card
def tvFailMsg (r : ProviderResult) : String :=
  "TV subscription failed: " ++ descrOrUnknown r.responseDescr

/-- Shared shape of the four confirm-stage execute branches once the user has
sent `yes`: re-fetch the wallet, abort (clearing the session) when it is
missing or holds less than the cost, otherwise debit, call the provider
(whose normalized response is the parameter `r`), record a settled
transaction of the flow's type with the computed status, clear the session,
and report success or failure.  A debit that throws is caught by the outer
handler, which deletes the session and sends the generic reset message. -/
def confirmExec (wallet : Option ℚ) (cost : ℚ) (ty : String) (insuffMsg : String)
    (okMsg : String) (failMsg : String) (r : ProviderResult) : ExecResult :=
  match wallet with
  | none =>
    { walletAfter := none, providerCalled := false, recordedTx := none,
      sessionCleared := true, message := insuffMsg }
  | some b =>
    if b < cost then
      { walletAfter := some b, providerCalled := false, recordedTx := none,
        sessionCleared := true, message := insuffMsg }
    else
      match updateWalletBalance b cost ("debit") with
      | .error _ =>
        { walletAfter := some b, providerCalled := false, recordedTx := none,
          sessionCleared := true, message := genericResetMsg }
      | .ok b' =>
        let status := transactionStatusOf r
        { walletAfter := some b', providerCalled := true,
          recordedTx := some (ty, status, cost), sessionCleared := true,
          message := if status == "success" then okMsg else failMsg }

/-- The `confirm_airtime` branch: cost is the session's fixed amount. -/
def confirmAirtimeExec (wallet : Option ℚ) (amount : ℚ) (network phone : String)
    (r : ProviderResult) : ExecResult :=
  confirmExec wallet amount ("airtime") insuffFundMsg (airtimeOkMsg phone network)
    (airtimeFailMsg r) r

/-- The `confirm_data` branch: cost is `parseFloat` of the selected plan's
`variation_amount`. -/
def confirmDataExec (wallet : Option ℚ) (cost : ℚ) (network plan phone : String)
    (r : ProviderResult) : ExecResult :=
  confirmExec wallet cost ("data") insuffFundMsg (dataOkMsg phone network plan)
    (dataFailMsg r) r

/-- The `confirm_electricity` branch: cost is the session's fixed amount. -/
def confirmElectricityExec (wallet : Option ℚ) (amount : ℚ) (meter : String)
    (r : ProviderResult) : ExecResult :=
  confirmExec wallet amount ("electricity") insuffShortMsg (elecOkMsg meter)
    (elecFailMsg r) r

/-- The `confirm_tv` branch: cost is the selected plan's price. -/
def confirmTvExec (wallet : Option ℚ) (cost : ℚ) (card : String)
    (r : ProviderResult) : ExecResult :=
  confirmExec wallet cost ("tv") insuffShortMsg (tvOkMsg card) (tvFailMsg r) r

/-- A provider-defined purchasable plan as returned by VTPass. -/
structure Variation where
  variationCode : String
  name : String
  variationAmount : String
deriving Repr, DecidableEq

/-- Content of a variation-list response as a JavaScript object: the plan
list may sit under the key `variations` (what VTPass and the mock responses
use) or under the misspelled key `varations`; reading an absent key yields
`undefined`, i.e. `none`. -/
structure VtContent where
  serviceName : String
  serviceID : String
  variations : Option (List Variation)
  varations : Option (List Variation)
deriving Repr, DecidableEq

/-- A `getVariations` response. -/
structure VarResponse where
  code : String
  responseDescr : Option String
  content : Option VtContent
deriving Repr, DecidableEq

/-- MTN data mock plans of `VTPassService.getMockVariations`. -/
def mtnDataPlans : List Variation :=
  [{ variationCode := ("M1024"), name := ("MTN Data 1GB"), variationAmount := ("500") },
   { variationCode := ("M2024"), name := ("MTN Data 2GB"), variationAmount := ("1000") },
   { variationCode := ("M3024"), name := ("MTN Data 3GB"), variationAmount := ("1500") },
   { variationCode := ("M5024"), name := ("MTN Data 5GB"), variationAmount := ("2500") }]

/-- DStv mock plans of `VTPassService.getMockVariations`. -/
def dstvPlans : List Variation :=
  [{ variationCode := ("dstv-padi"), name := ("DStv Padi"), variationAmount := ("2500") },
   { variationCode := ("dstv-confam"), name := ("DStv Confam"), variationAmount := ("5500") },
   { variationCode := ("dstv-compact"), name := ("DStv Compact"), variationAmount := ("12000") }]

/-- Embedding of `VTPassService.getMockVariations`: the mocks store their
plan lists under the correctly spelled `variations` key only. -/
def getMockVariations (serviceID : String) : VarResponse :=
  if serviceID == "mtn-data" then
    { code := ("000"), responseDescr := some ("SUCCESS"),
      content := some { serviceName := ("MTN Data"), serviceID := ("mtn-data"),
                        variations := some mtnDataPlans, varations := none } }
  else if serviceID == "dstv" then
    { code := ("000"), responseDescr := some ("SUCCESS"),
      content := some { serviceName := ("DStv"), serviceID := ("dstv"),
                        variations := some dstvPlans, varations := none } }
  else
    { code := ("001"), responseDescr := some ("Service not found"), content := none }

/-- No-plans abort message of the data flow. -/
def noDataPlansMsg (network : String) : String :=
  "No data plans found for " ++ network ++
    ". Please try again later or choose another network."

/-- No-plans abort message of the TV flow. -/
def noTvPlansMsg (provider : String) : String :=
  "No TV plans found for " ++ provider ++ ". Please try again later."

/-- Outcome of the plan-lookup step: the plan list stored in the session,
whether the flow aborted (deleting the session), and the message sent. -/
structure PlanStepOut where
  sessionVariations : List Variation
  sessionDeleted : Bool
  aborted : Bool
  message : String
deriving Repr, DecidableEq

/-- Plan-listing prompt of the data flow (built from the stored list). -/
def dataPlansPrompt (network : String) (vs : List Variation) : String :=
  "Choose data plan for " ++ network ++ ": " ++ String.intercalate (", ")
    (vs.map (fun v => v.name ++ " - " ++ v.variationCode))

/-- Plan-listing prompt of the TV flow. -/
def tvPlansPrompt (provider : String) (vs : List Variation) : String :=
  "Choose TV plan for " ++ provider ++ ": " ++ String.intercalate (", ")
    (vs.map (fun v => v.name ++ " - " ++ v.variationCode))

/-- The `awaiting_data_phone` branch after a valid phone number: it stores
`variations.content?.varations || []` — reading the misspelled key — then
aborts, deleting the session, when that list is empty. -/
def dataPlanStep (network : String) (resp : VarResponse) : PlanStepOut :=
  let vars := (resp.content.bind (fun c => c.varations)).getD []
  if vars.isEmpty then
    { sessionVariations := vars, sessionDeleted := true, aborted := true,
      message := noDataPlansMsg network }
  else
    { sessionVariations := vars, sessionDeleted := false, aborted := false,
      message := dataPlansPrompt network vars }

/-- The `awaiting_card_number` branch after a valid card number: same
misspelled read and empty-list abort as the data flow. -/
def tvPlanStep (provider : String) (resp : VarResponse) : PlanStepOut :=
  let vars := (resp.content.bind (fun c => c.varations)).getD []
  if vars.isEmpty then
    { sessionVariations := vars, sessionDeleted := true, aborted := true,
      message := noTvPlansMsg provider }
  else
    { sessionVariations := vars, sessionDeleted := false, aborted := false,
      message := tvPlansPrompt provider vars }

/-- What one HTTP attempt against Paystack yields: a successful response
body, or an error whose `error.response?.status` is the given code. -/
inductive HttpOutcome (α : Type) where
  | ok (r : α)
  | err (status : Nat)
deriving Repr, DecidableEq

/-- Loop body of `PaystackService.makeRequest` (`maxRetries = 3`): attempt
`attempt` consumes `responses attempt`; only a 429 with retries left sleeps
`2^attempt * 1000` ms and loops; every other error is rethrown at once.
Returns the number of attempts made, the backoff delays in ms, and the
outcome. -/
def makeRequestGo (responses : Nat → HttpOutcome α) :
    Nat → Nat → Nat × List Nat × Except Nat α
  | 0, attempt => (attempt, [], .error 0)
  | fuel + 1, attempt =>
    if attempt < 3 then
      match responses attempt with
      | .ok r => (attempt + 1, [], .ok r)
      | .err s =>
        if s == 429 && attempt < 3 - 1 then
          let rest := makeRequestGo responses fuel (attempt + 1)
          (rest.1, (2 ^ attempt * 1000) :: rest.2.1, rest.2.2)
        else (attempt + 1, [], .error s)
    else (attempt, [], .error 0)

/-- `PaystackService.makeRequest`, used only by payment initialization.  The
fuel `3` bounds the loop exactly as `maxRetries` does. -/
def makeRequest (responses : Nat → HttpOutcome α) : Nat × List Nat × Except Nat α :=
  makeRequestGo responses 3 0

/-- `PaystackService.initializePayment`: delegates to `makeRequest` and wraps
any escaped error into the fixed initialization failure. -/
def initializePayment (responses : Nat → HttpOutcome α) : Nat × List Nat × Except String α :=
  let out := makeRequest responses
  (out.1, out.2.1,
    match out.2.2 with
    | .ok r => .ok r
    | .error _ => .error ("Payment initialization failed"))

/-- `PaystackService.verifyPayment`: a single direct `axios.get` with no
retry loop; any error — a 429 included — is wrapped and rethrown.  Returns
the number of attempts made and the outcome. -/
def verifyPayment (responses : Nat → HttpOutcome α) : Nat × Except String α :=
  match responses 0 with
  | .ok r => (1, .ok r)
  | .err _ => (1, .error ("Payment verification failed"))

/-- JavaScript `String.prototype.split` with a one-character separator,
over strings as character lists. -/
def splitOnChar (c : Char) : List Char → List (List Char)
  | [] => [[]]
  | x :: xs =>
    if x = c then [] :: splitOnChar c xs
    else
      match splitOnChar c xs with
      | [] => [[x]]
      | y :: ys => (x :: y) :: ys

/-- Decimal rendering of a natural number, as a template literal renders
`Date.now()`. -/
def natCharsGo : Nat → Nat → List Char → List Char
  | 0, _, acc => acc
  | fuel + 1, n, acc =>
    if n < 10 then Nat.digitChar n :: acc
    else natCharsGo fuel (n / 10) (Nat.digitChar (n % 10) :: acc)

/-- Digits of an epoch-millisecond timestamp; the fuel `n + 1` always covers
the digit count. -/
def natChars (n : Nat) : List Char := natCharsGo (n + 1) n []

/-- Reference generation `<PREFIX>_<userId>_<epochMillis>` as in
`AIRTIME_${user.$id}_${Date.now()}` and `FUND_${user.telegramId}_${Date.now()}`. -/
def makeReference (tag userId : List Char) (ts : Nat) : List Char :=
  tag ++ '_' :: userId ++ '_' :: natChars ts

/-- Reference parsing `reference.split("_")[1]` from the webhook handler. -/
def parseRefUserId (ref : List Char) : List Char :=
  (splitOnChar '_' ref).getD 1 []

/-- A rational with at most two decimal places (every stored naira balance
and every kobo-derived amount has this form). -/
def TwoDec (q : ℚ) : Prop := ∃ n : ℤ, q = (n : ℚ) / 100

lemma round2_nonneg (q : ℚ) (h : 0 ≤ q) : 0 ≤ round2 q := by
  unfold round2
  apply div_nonneg _ (by norm_num)
  have h2 : (0 : ℤ) ≤ ⌊q * 100 + 1/2⌋ := by
    rw [Int.le_floor]
    push_cast
    nlinarith
  exact_mod_cast h2

lemma round2_twoDec (q : ℚ) (h : TwoDec q) : round2 q = q := by
  obtain ⟨n, rfl⟩ := h
  unfold round2
  have h1 : ((n : ℚ) / 100) * 100 = (n : ℚ) := by field_simp
  rw [h1]
  have h2 : ⌊(n : ℚ) + 1/2⌋ = n := by
    rw [add_comm, Int.floor_add_int]
    have : ⌊(1 / 2 : ℚ)⌋ = 0 := by
      rw [Int.floor_eq_zero_iff]
      constructor <;> norm_num
    omega
  rw [h2]

lemma TwoDec.add {a b : ℚ} (ha : TwoDec a) (hb : TwoDec b) : TwoDec (a + b) := by
  obtain ⟨n, rfl⟩ := ha
  obtain ⟨m, rfl⟩ := hb
  exact ⟨n + m, by push_cast; ring⟩

lemma applyOp_nonneg (b : ℚ) (op : ℚ × String) (hb : 0 ≤ b) : 0 ≤ applyOp b op := by
  unfold applyOp updateWalletBalance
  by_cases h1 : op.1 < 0
  · simp [h1, hb]
  · by_cases h2 : (if op.2 = "credit" then b + op.1 else b - op.1) < 0
    · simp [h1, h2, hb]
    · simp [h1, h2]
      exact round2_nonneg _ (not_lt.mp h2)

/-- C2.  For every sequence of `updateWalletBalance` calls starting from a
non-negative stored balance, the stored balance never becomes negative, and
a debit whose resulting balance would be negative throws
`Insufficient balance` and performs no write, leaving the balance
unchanged. -/
theorem wallet_balance_never_negative (b0 : ℚ) (hb : 0 ≤ b0) :
    (∀ ops : List (ℚ × String), 0 ≤ runOps b0 ops) ∧
    (∀ b a ty, 0 ≤ b → ty ≠ ("credit") → b - a < 0 →
      updateWalletBalance b a ty = .error ("Insufficient balance") ∧
        applyOp b (a, ty) = b) := by
  constructor
  · have main : ∀ (ops : List (ℚ × String)) (b : ℚ), 0 ≤ b → 0 ≤ runOps b ops := by
      intro ops
      induction ops with
      | nil => intro b h; simpa [runOps] using h
      | cons op rest ih =>
        intro b h
        have : runOps b (op :: rest) = runOps (applyOp b op) rest := by
          simp [runOps]
        rw [this]
        exact ih _ (applyOp_nonneg b op h)
    exact fun ops => main ops b0 hb
  · intro b a ty hbpos hty hneg
    have ha : ¬ a < 0 := by intro h; nlinarith
    have hcred : (ty == "credit") = false := beq_eq_false_iff_ne.mpr hty
    constructor
    · simp [updateWalletBalance, ha, hcred, hneg]
    · simp [applyOp, updateWalletBalance, ha, hcred, hneg]

/-- Witness for C2 at balance 500 with a rejected over-debit of 700 from a
balance of 100. -/
theorem wallet_balance_never_negative_witness :
    (0 : ℚ) ≤ 500 ∧
    ((∀ ops : List (ℚ × String), 0 ≤ runOps 500 ops) ∧
      (∀ b a ty, 0 ≤ b → ty ≠ ("credit") → b - a < 0 →
        updateWalletBalance b a ty = .error ("Insufficient balance") ∧
          applyOp b (a, ty) = b)) :=
  ⟨by decide, wallet_balance_never_negative 500 (by decide)⟩

lemma updateWalletBalance_noncredit (ty : String) (b a : ℚ)
    (hty : ty ≠ ("credit")) (ha : 0 ≤ a) (hab : a ≤ b) :
    updateWalletBalance b a ty = .ok (round2 (b - a)) := by
  have h1 : ¬ a < 0 := not_lt.mpr ha
  have h2 : (ty == "credit") = false := beq_eq_false_iff_ne.mpr hty
  have h3 : ¬ (b - a < 0) := not_lt.mpr (sub_nonneg.mpr hab)
  simp [updateWalletBalance, h1, h2, h3]

lemma updateWalletBalance_credit (b a : ℚ) (ha : 0 ≤ a) (hb : 0 ≤ b) :
    updateWalletBalance b a ("credit") = .ok (round2 (b + a)) := by
  have h1 : ¬ a < 0 := not_lt.mpr ha
  have h4 : ¬ (b + a < 0) := by
    intro h
    nlinarith
  simp [updateWalletBalance, h1, h4]

/-- C9.  Every type argument other than the exact string `credit` is treated
as a debit — the amount is subtracted, not rejected — while `credit` alone
adds to the balance. -/
theorem noncredit_type_is_debit (ty : String) (b a : ℚ)
    (hty : ty ≠ ("credit")) (ha : 0 ≤ a) (hab : a ≤ b) :
    updateWalletBalance b a ty = .ok (round2 (b - a)) ∧
    updateWalletBalance b a ("credit") = .ok (round2 (b + a)) :=
  ⟨updateWalletBalance_noncredit ty b a hty ha hab,
    updateWalletBalance_credit b a ha (ha.trans hab)⟩

/-- Witness for C9: the capitalized string `Credit` debits 200 from 500. -/
theorem noncredit_type_is_debit_witness :
    (("Credit" : String) ≠ ("credit") ∧ (0 : ℚ) ≤ 200 ∧ (200 : ℚ) ≤ 500) ∧
    (updateWalletBalance 500 200 ("Credit") = .ok (round2 (500 - 200)) ∧
      updateWalletBalance 500 200 ("credit") = .ok (round2 (500 + 200))) :=
  ⟨⟨by decide, by decide, by decide⟩,
    noncredit_type_is_debit ("Credit") 500 200 (by decide) (by decide) (by decide)⟩

/-- C3.  A webhook POST whose computed HMAC-SHA512 of the raw body differs
from the `x-paystack-signature` header is answered with status 401 and no
processing happens: the store is unchanged and no lookup, credit or write
effect occurs. -/
theorem invalid_signature_rejected (computedHash sig event ref : String)
    (amountKobo : ℚ) (userFound : Bool) (verifyStatus : String) (st : DbState)
    (h : computedHash ≠ sig) :
    webhookHandler computedHash sig event ref amountKobo userFound verifyStatus st =
      { status := 401, body := ("Invalid signature"), db := st, trace := [] } := by
  have hb : (computedHash != sig) = true := by
    simp [bne_iff_ne]
    exact h
  simp [webhookHandler, hb]

/-- Witness for C3 at a concrete mismatching signature. -/
theorem invalid_signature_rejected_witness :
    ("deadbeef" : String) ≠ ("cafebabe") ∧
    webhookHandler ("deadbeef") ("cafebabe") ("charge.success") ("FUND_1_2") 50000
        true ("success") { balance := 0, txs := [], nextId := 0 } =
      { status := 401, body := ("Invalid signature"),
        db := { balance := 0, txs := [], nextId := 0 }, trace := [] } :=
  ⟨by decide,
    invalid_signature_rejected ("deadbeef") ("cafebabe") ("charge.success") ("FUND_1_2")
      50000 true ("success") { balance := 0, txs := [], nextId := 0 } (by decide)⟩

lemma confirmExec_insufficient (wallet : Option ℚ) (cost : ℚ)
    (ty im om fm : String) (r : ProviderResult)
    (h : wallet = none ∨ ∃ b, wallet = some b ∧ b < cost) :
    confirmExec wallet cost ty im om fm r =
      { walletAfter := wallet, providerCalled := false, recordedTx := none,
        sessionCleared := true, message := im } := by
  rcases h with rfl | ⟨b, rfl, hlt⟩
  · rfl
  · simp [confirmExec, hlt]

/-- C4.  In every confirm-stage execute step, a missing wallet or a balance
below the cost aborts with the flow's insufficient-balance message, calls no
billing provider, performs no debit, records no transaction, and clears the
session; the wallet balance is unchanged. -/
theorem insufficient_balance_aborts (wallet : Option ℚ) (cost : ℚ)
    (network plan phone meter card : String) (r : ProviderResult)
    (h : wallet = none ∨ ∃ b, wallet = some b ∧ b < cost) :
    confirmAirtimeExec wallet cost network phone r =
      { walletAfter := wallet, providerCalled := false, recordedTx := none,
        sessionCleared := true, message := insuffFundMsg } ∧
    confirmDataExec wallet cost network plan phone r =
      { walletAfter := wallet, providerCalled := false, recordedTx := none,
        sessionCleared := true, message := insuffFundMsg } ∧
    confirmElectricityExec wallet cost meter r =
      { walletAfter := wallet, providerCalled := false, recordedTx := none,
        sessionCleared := true, message := insuffShortMsg } ∧
    confirmTvExec wallet cost card r =
      { walletAfter := wallet, providerCalled := false, recordedTx := none,
        sessionCleared := true, message := insuffShortMsg } :=
  ⟨confirmExec_insufficient wallet cost _ _ _ _ r h,
    confirmExec_insufficient wallet cost _ _ _ _ r h,
    confirmExec_insufficient wallet cost _ _ _ _ r h,
    confirmExec_insufficient wallet cost _ _ _ _ r h⟩

/-- Witness for C4: a 100-naira wallet cannot cover a 200-naira purchase. -/
theorem insufficient_balance_aborts_witness :
    (some (100 : ℚ) = none ∨ ∃ b, some (100 : ℚ) = some b ∧ b < 200) ∧
    confirmAirtimeExec (some 100) 200 ("MTN") ("08012345678")
        { code := ("000"), txStatus := some ("delivered"), responseDescr := none } =
      { walletAfter := some 100, providerCalled := false, recordedTx := none,
        sessionCleared := true, message := insuffFundMsg } :=
  ⟨Or.inr ⟨100, rfl, by decide⟩,
    (insufficient_balance_aborts (some 100) 200 ("MTN") ("1GB") ("08012345678")
      ("1234567890") ("9876543210")
      { code := ("000"), txStatus := some ("delivered"), responseDescr := none }
      (Or.inr ⟨100, rfl, by decide⟩)).1⟩

lemma transactionStatusOf_iff (r : ProviderResult) :
    transactionStatusOf r = "success" ↔
      (r.code = "000" ∧ r.txStatus = some ("delivered")) := by
  unfold transactionStatusOf
  by_cases h : r.code = "000" ∧ r.txStatus = some ("delivered")
  · obtain ⟨h1, h2⟩ := h
    simp [h1, h2]
  · have hb : (r.code == "000" && r.txStatus == some ("delivered")) = false := by
      rcases not_and_or.mp h with h1 | h1
      · simp [beq_eq_false_iff_ne.mpr h1]
      · simp [beq_eq_false_iff_ne.mpr h1]
    simp only [hb, Bool.false_eq_true, if_false]
    exact iff_of_false (by decide) h

lemma transactionStatusOf_total (r : ProviderResult) :
    transactionStatusOf r = "success" ∨ transactionStatusOf r = "failed" := by
  unfold transactionStatusOf
  split
  · exact Or.inl rfl
  · exact Or.inr rfl

lemma confirmExec_sufficient (b cost : ℚ) (hc : 0 ≤ cost) (hbc : cost ≤ b)
    (ty im om fm : String) (r : ProviderResult) :
    confirmExec (some b) cost ty im om fm r =
      { walletAfter := some (round2 (b - cost)), providerCalled := true,
        recordedTx := some (ty, transactionStatusOf r, cost), sessionCleared := true,
        message := if transactionStatusOf r == "success" then om else fm } := by
  have h1 : ¬ b < cost := not_lt.mpr hbc
  have h2 : updateWalletBalance b cost ("debit") = .ok (round2 (b - cost)) :=
    updateWalletBalance_noncredit ("debit") b cost (by decide) hc hbc
  simp [confirmExec, h1, h2]

/-- C5.  With a sufficient balance, every purchase execute debits the cost,
calls the provider, records a settled transaction whose status is `success`
exactly when the response has top-level code `000` and nested delivery
status `delivered` (any other combination, a pending status included, being
recorded and reported as `failed`), and reports the matching message. -/
theorem purchase_success_iff_delivered (b cost : ℚ) (hc : 0 ≤ cost) (hbc : cost ≤ b)
    (network plan phone meter card : String) (r : ProviderResult) :
    confirmAirtimeExec (some b) cost network phone r =
      { walletAfter := some (round2 (b - cost)), providerCalled := true,
        recordedTx := some (("airtime"), transactionStatusOf r, cost),
        sessionCleared := true,
        message := if transactionStatusOf r == "success" then
          airtimeOkMsg phone network else airtimeFailMsg r } ∧
    confirmDataExec (some b) cost network plan phone r =
      { walletAfter := some (round2 (b - cost)), providerCalled := true,
        recordedTx := some (("data"), transactionStatusOf r, cost),
        sessionCleared := true,
        message := if transactionStatusOf r == "success" then
          dataOkMsg phone network plan else dataFailMsg r } ∧
    confirmElectricityExec (some b) cost meter r =
      { walletAfter := some (round2 (b - cost)), providerCalled := true,
        recordedTx := some (("electricity"), transactionStatusOf r, cost),
        sessionCleared := true,
        message := if transactionStatusOf r == "success" then
          elecOkMsg meter else elecFailMsg r } ∧
    confirmTvExec (some b) cost card r =
      { walletAfter := some (round2 (b - cost)), providerCalled := true,
        recordedTx := some (("tv"), transactionStatusOf r, cost),
        sessionCleared := true,
        message := if transactionStatusOf r == "success" then
          tvOkMsg card else tvFailMsg r } ∧
    (transactionStatusOf r = "success" ↔
      (r.code = "000" ∧ r.txStatus = some ("delivered"))) ∧
    (transactionStatusOf r = "success" ∨ transactionStatusOf r = "failed") :=
  ⟨confirmExec_sufficient b cost hc hbc _ _ _ _ r,
    confirmExec_sufficient b cost hc hbc _ _ _ _ r,
    confirmExec_sufficient b cost hc hbc _ _ _ _ r,
    confirmExec_sufficient b cost hc hbc _ _ _ _ r,
    transactionStatusOf_iff r, transactionStatusOf_total r⟩

/-- Witness for C5 at a recognized-but-pending delivery status: code `000`
with a `pending` nested status is recorded as `failed`. -/
theorem purchase_success_iff_delivered_witness :
    ((0 : ℚ) ≤ 200 ∧ (200 : ℚ) ≤ 500) ∧
    (transactionStatusOf
        { code := ("000"), txStatus := some ("pending"), responseDescr := none } =
          "success" ↔
      (("000" : String) = "000" ∧
        (some ("pending") : Option String) = some ("delivered"))) ∧
    transactionStatusOf
        { code := ("000"), txStatus := some ("pending"), responseDescr := none } =
      "failed" :=
  ⟨⟨by decide, by decide⟩,
    (purchase_success_iff_delivered 500 200 (by decide) (by decide) ("MTN") ("1GB")
      ("08012345678") ("1234567890") ("9876543210")
      { code := ("000"), txStatus := some ("pending"), responseDescr := none }).2.2.2.2.1,
    by decide⟩

/-- C8.  Every variation-list response that keeps its plans under the key
`variations` inside `content` — the shape the VTPass mocks return — is read
through the misspelled key `varations` by the data and TV flows, which
therefore see an empty plan list, abort, delete the session, and report that
no plans were found.  The mock responses for `mtn-data` and `dstv` have
exactly this shape with non-empty plan lists. -/
theorem mistyped_variations_key (network provider : String) (resp : VarResponse)
    (c : VtContent) (hc : resp.content = some c) (hv : c.varations = none) :
    dataPlanStep network resp =
      { sessionVariations := [], sessionDeleted := true, aborted := true,
        message := noDataPlansMsg network } ∧
    tvPlanStep provider resp =
      { sessionVariations := [], sessionDeleted := true, aborted := true,
        message := noTvPlansMsg provider } ∧
    (∃ mc, (getMockVariations ("mtn-data")).content = some mc ∧
      mc.varations = none ∧ mc.variations = some mtnDataPlans ∧ mtnDataPlans ≠ []) ∧
    (∃ tc, (getMockVariations ("dstv")).content = some tc ∧
      tc.varations = none ∧ tc.variations = some dstvPlans ∧ dstvPlans ≠ []) := by
  refine ⟨?_, ?_, ⟨_, rfl, rfl, rfl, by decide⟩, ⟨_, rfl, rfl, rfl, by decide⟩⟩
  · simp [dataPlanStep, hc, hv]
  · simp [tvPlanStep, hc, hv]

/-- Witness for C8 at the mock `mtn-data` response itself. -/
theorem mistyped_variations_key_witness :
    ((getMockVariations ("mtn-data")).content =
        some { serviceName := ("MTN Data"), serviceID := ("mtn-data"),
               variations := some mtnDataPlans, varations := none } ∧
      ({ serviceName := ("MTN Data"), serviceID := ("mtn-data"),
         variations := some mtnDataPlans, varations := none } : VtContent).varations =
        none) ∧
    dataPlanStep ("MTN") (getMockVariations ("mtn-data")) =
      { sessionVariations := [], sessionDeleted := true, aborted := true,
        message := noDataPlansMsg ("MTN") } :=
  ⟨⟨rfl, rfl⟩,
    (mistyped_variations_key ("MTN") ("DSTV") (getMockVariations ("mtn-data"))
      { serviceName := ("MTN Data"), serviceID := ("mtn-data"),
        variations := some mtnDataPlans, varations := none } rfl rfl).1⟩

lemma splitOnChar_ne_nil (c : Char) (l : List Char) : splitOnChar c l ≠ [] := by
  cases l with
  | nil => simp [splitOnChar]
  | cons x xs =>
    unfold splitOnChar
    by_cases h : x = c
    · simp [h]
    · simp only [h, if_false]
      split
      · simp
      · simp

lemma splitOnChar_no_sep (c : Char) (l : List Char) (h : c ∉ l) :
    splitOnChar c l = [l] := by
  induction l with
  | nil => rfl
  | cons x xs ih =>
    have hx : ¬ x = c := fun he => h (he ▸ List.mem_cons_self x xs)
    have hxs : c ∉ xs := fun hm => h (List.mem_cons_of_mem x hm)
    unfold splitOnChar
    rw [if_neg hx, ih hxs]

lemma splitOnChar_append (c : Char) (p rest : List Char) (hp : c ∉ p) :
    splitOnChar c (p ++ c :: rest) = p :: splitOnChar c rest := by
  induction p with
  | nil => simp [splitOnChar]
  | cons x xs ih =>
    have hx : ¬ x = c := fun he => hp (he ▸ List.mem_cons_self x xs)
    have hxs : c ∉ xs := fun hm => hp (List.mem_cons_of_mem x hm)
    show splitOnChar c (x :: (xs ++ c :: rest)) = (x :: xs) :: splitOnChar c rest
    conv_lhs => rw [splitOnChar]
    rw [if_neg hx, ih hxs]

lemma digitChar_ne_underscore : ∀ d < 10, Nat.digitChar d ≠ '_' := by decide

lemma natCharsGo_ne_underscore (fuel : Nat) :
    ∀ (n : Nat) (acc : List Char), (∀ ch ∈ acc, ch ≠ '_') →
      ∀ ch ∈ natCharsGo fuel n acc, ch ≠ '_' := by
  induction fuel with
  | zero => intro n acc hacc ch hch; exact hacc ch hch
  | succ fuel ih =>
    intro n acc hacc ch hch
    unfold natCharsGo at hch
    by_cases h10 : n < 10
    · rw [if_pos h10] at hch
      rcases List.mem_cons.mp hch with rfl | hm
      · exact digitChar_ne_underscore n h10
      · exact hacc ch hm
    · rw [if_neg h10] at hch
      refine ih (n / 10) (Nat.digitChar (n % 10) :: acc) ?_ ch hch
      intro ch' hch'
      rcases List.mem_cons.mp hch' with rfl | hm
      · exact digitChar_ne_underscore _ (Nat.mod_lt n (by omega))
      · exact hacc ch' hm

lemma natChars_no_underscore (n : Nat) : '_' ∉ natChars n := by
  intro h
  exact natCharsGo_ne_underscore (n + 1) n [] (by intro ch hch; cases hch) '_' h rfl

/-- C7.  A reference built as `<PREFIX>_<userId>_<epochMillis>` with an
underscore-free prefix and user id parses back — split on underscores, take
index 1 — to exactly the same user id. -/
theorem reference_roundtrip (tag userId : List Char) (ts : Nat)
    (htag : '_' ∉ tag) (huid : '_' ∉ userId) :
    parseRefUserId (makeReference tag userId ts) = userId := by
  unfold parseRefUserId makeReference
  rw [List.append_assoc, List.cons_append,
    splitOnChar_append '_' tag _ htag,
    splitOnChar_append '_' userId _ huid,
    splitOnChar_no_sep '_' (natChars ts) (natChars_no_underscore ts)]
  rfl

/-- Witness for C7 on a concrete funding reference. -/
theorem reference_roundtrip_witness :
    ('_' ∉ ("FUND".toList) ∧ '_' ∉ ("12345".toList)) ∧
    parseRefUserId (makeReference ("FUND".toList) ("12345".toList) 1700000000000) =
      ("12345".toList) :=
  ⟨⟨by decide, by decide⟩,
    reference_roundtrip ("FUND".toList) ("12345".toList) 1700000000000
      (by decide) (by decide)⟩

lemma makeRequestGo_attempts_le (responses : Nat → HttpOutcome α) :
    ∀ fuel attempt, fuel + attempt ≤ 3 → (makeRequestGo responses fuel attempt).1 ≤ 3 := by
  intro fuel
  induction fuel with
  | zero =>
    intro attempt h
    simpa [makeRequestGo] using (by omega : attempt ≤ 3)
  | succ fuel ih =>
    intro attempt h
    unfold makeRequestGo
    by_cases h3 : attempt < 3
    · rw [if_pos h3]
      cases hr : responses attempt with
      | ok r => simpa using (by omega : attempt + 1 ≤ 3)
      | err s =>
        by_cases hretry : (s == 429 && decide (attempt < 3 - 1)) = true
        · simp only [hretry, if_true]
          exact ih (attempt + 1) (by omega)
        · simp only [hretry, if_false]
          simpa using (by omega : attempt + 1 ≤ 3)
    · rw [if_neg h3]
      simpa using (by omega : attempt ≤ 3)

/-- C6 (amended).  Payment initialization — `makeRequest`, the only caller
of the retry loop — makes at most 3 attempts, backs off exponentially, and
retries only on HTTP 429, propagating every other error at once; payment
verification makes exactly one attempt and wraps any error, a 429 included,
without retrying. -/
theorem paystack_retry_behavior (responses : Nat → HttpOutcome α) :
    (makeRequest responses).1 ≤ 3 ∧
    (2 ≤ (makeRequest responses).1 → responses 0 = .err 429) ∧
    (∀ r, responses 0 = .ok r → makeRequest responses = (1, [], .ok r)) ∧
    (∀ s, s ≠ 429 → responses 0 = .err s →
      makeRequest responses = (1, [], .error s) ∧
      initializePayment responses = (1, [], .error ("Payment initialization failed"))) ∧
    (∀ r, responses 0 = .err 429 → responses 1 = .ok r →
      makeRequest responses = (2, [1000], .ok r)) ∧
    (∀ r, responses 0 = .err 429 → responses 1 = .err 429 → responses 2 = .ok r →
      makeRequest responses = (3, [1000, 2000], .ok r)) ∧
    (∀ s, responses 0 = .err 429 → responses 1 = .err 429 → responses 2 = .err s →
      makeRequest responses = (3, [1000, 2000], .error s)) ∧
    (verifyPayment responses).1 = 1 ∧
    (∀ r, responses 0 = .ok r → verifyPayment responses = (1, .ok r)) ∧
    (∀ s, responses 0 = .err s →
      verifyPayment responses = (1, .error ("Payment verification failed"))) := by
  refine ⟨makeRequestGo_attempts_le responses 3 0 (by omega), ?_, ?_, ?_, ?_, ?_, ?_, ?_, ?_, ?_⟩
  · intro h2
    cases h0 : responses 0 with
    | ok r =>
      rw [show makeRequest responses = (1, [], .ok r) by
        simp [makeRequest, makeRequestGo, h0]] at h2
      omega
    | err s =>
      by_cases hs : s = 429
      · rw [hs]
      · have hb : (s == 429) = false := beq_eq_false_iff_ne.mpr hs
        rw [show makeRequest responses = (1, [], .error s) by
          simp [makeRequest, makeRequestGo, h0, hb]] at h2
        omega
  · intro r h0
    simp [makeRequest, makeRequestGo, h0]
  · intro s hs h0
    have hb : (s == 429) = false := beq_eq_false_iff_ne.mpr hs
    constructor
    · simp [makeRequest, makeRequestGo, h0, hb]
    · simp [initializePayment, makeRequest, makeRequestGo, h0, hb]
  · intro r h0 h1
    simp [makeRequest, makeRequestGo, h0, h1]
  · intro r h0 h1 h2
    simp [makeRequest, makeRequestGo, h0, h1, h2]
  · intro s h0 h1 h2
    simp [makeRequest, makeRequestGo, h0, h1, h2]
  · cases h0 : responses 0 <;> simp [verifyPayment, h0]
  · intro r h0
    simp [verifyPayment, h0]
  · intro s h0
    simp [verifyPayment, h0]

/-- Counterexample to C6 as stated: on a stream whose first response is a
rate-limit 429 and whose second attempt would succeed, the initialization
path retries and succeeds after a 1000 ms backoff, but `verifyPayment` gives
up after a single attempt instead of retrying as the claim asserts. -/
theorem verification_no_retry_counterexample :
    verifyPayment (fun n => if n = 0 then HttpOutcome.err 429 else HttpOutcome.ok 7) =
      (1, .error ("Payment verification failed")) ∧
    makeRequest (fun n => if n = 0 then HttpOutcome.err 429 else HttpOutcome.ok 7) =
      (2, [1000], .ok 7) :=
  ⟨rfl, rfl⟩

/-- Witness for the amended C6 on the same concrete stream. -/
theorem paystack_retry_behavior_witness :
    ((fun n => if n = 0 then HttpOutcome.err 429 else HttpOutcome.ok 7) 0 =
        HttpOutcome.err (α := Nat) 429 ∧
      (fun n => if n = 0 then HttpOutcome.err 429 else HttpOutcome.ok 7) 1 =
        HttpOutcome.ok (α := Nat) 7) ∧
    makeRequest (fun n => if n = 0 then HttpOutcome.err 429 else HttpOutcome.ok 7) =
      (2, [1000], .ok 7) :=
  ⟨⟨rfl, rfl⟩,
    (paystack_retry_behavior
        (fun n => if n = 0 then HttpOutcome.err 429 else HttpOutcome.ok 7)).2.2.2.2.1
      7 rfl rfl⟩

/-- C10.  When verification first reports success on the final polling tick
(`attempts = maxAttempts - 1` entering the tick) and the reference has no
already-successful transaction, the tick credits the wallet and sends the
funding success message, and then — because the attempt counter is still
incremented and the exhaustion check still runs — also sends the
verification-timed-out message in the same tick. -/
theorem success_on_final_tick_also_times_out (ref : String) (a : ℚ)
    (maxAttempts : Nat) (st : DbState) (hmax : 1 ≤ maxAttempts) (ha : 0 ≤ a)
    (hb : 0 ≤ st.balance)
    (hfind : ∀ t, pollFindTransaction st.txs ref = some t → t.status ≠ ("success")) :
    ∃ st', pollTick ref a maxAttempts ("success") (maxAttempts - 1) st =
      { attempts := maxAttempts, cleared := true, db := st', sessionDeleted := true,
        msgs := [fundedMsg a, timeoutMsg] } ∧
      st'.balance = round2 (st.balance + a) := by
  have hcred := updateWalletBalance_credit st.balance a ha hb
  have hsum : maxAttempts - 1 + 1 = maxAttempts := by omega
  unfold pollTick
  rw [if_pos (by simp)]
  cases hfi : pollFindTransaction st.txs ref with
  | none =>
    refine ⟨{ balance := round2 (st.balance + a),
              txs := mkSuccessTx st.nextId ref a :: st.txs, nextId := st.nextId + 1 },
            ?_, rfl⟩
    simp only [hcred]
    unfold pollTickTail
    rw [hsum, if_pos (le_refl maxAttempts)]
    rfl
  | some t =>
    have hts : (t.status == "success") = false :=
      beq_eq_false_iff_ne.mpr (hfind t hfi)
    refine ⟨{ balance := round2 (st.balance + a),
              txs := updateTxStatus st.txs t.id ("success"), nextId := st.nextId },
            ?_, rfl⟩
    simp only [hts, Bool.false_eq_true, if_false, hcred]
    unfold pollTickTail
    rw [hsum, if_pos (le_refl maxAttempts)]
    rfl

/-- Witness for C10 at an empty store on the 30th of 30 attempts. -/
theorem success_on_final_tick_also_times_out_witness :
    (1 ≤ 30 ∧ (0 : ℚ) ≤ 500 ∧
      (0 : ℚ) ≤ (DbState.mk 0 [] 0).balance) ∧
    ∃ st', pollTick ("FUND_1_2") 500 30 ("success") (30 - 1) (DbState.mk 0 [] 0) =
      { attempts := 30, cleared := true, db := st', sessionDeleted := true,
        msgs := [fundedMsg 500, timeoutMsg] } ∧
      st'.balance = round2 ((DbState.mk 0 [] 0).balance + 500) :=
  ⟨⟨by decide, by decide, by decide⟩,
    success_on_final_tick_also_times_out ("FUND_1_2") 500 30 (DbState.mk 0 [] 0)
      (by decide) (by decide) (by decide)
      (by intro t h; simp [pollFindTransaction] at h)⟩

/-- No document in the list concerns the reference. -/
def NoRefTx (ref : String) (l : List Tx) : Prop := ∀ t ∈ l, isRefTx ref t = false

/-- State of the store before the reference has been settled: either no
document concerns the reference (a push may arrive before the initiating
`/fund` write completes), or the newest document is the reference's still
unsettled transaction — exactly the state `/fund` leaves behind, since the
pending record it creates is the most recent one. -/
def Inv0 (ref : String) (st : DbState) : Prop :=
  NoRefTx ref st.txs ∨
  ∃ t rest, st.txs = t :: rest ∧ t.reference = ref ∧ t.detailsRef = some ref ∧
    t.status ≠ ("success") ∧ NoRefTx ref rest

/-- State after the reference has been settled once: the newest-position
document for the reference is the unique one, has status `success`, and the
balance has been credited exactly once. -/
def Inv1 (ref : String) (b : ℚ) (st : DbState) : Prop :=
  (∃ t rest, st.txs = t :: rest ∧ t.reference = ref ∧ t.detailsRef = some ref ∧
    t.status = ("success") ∧ NoRefTx ref rest) ∧ st.balance = b

lemma isRefTx_false_parts {ref : String} {t : Tx} (h : isRefTx ref t = false) :
    (t.reference == ref) = false ∧ (t.detailsRef == some ref) = false := by
  unfold isRefTx at h
  exact Bool.or_eq_false_iff.mp h

lemma NoRefTx_updateTxStatus {ref : String} {l : List Tx} (i : Nat) (s : String)
    (h : NoRefTx ref l) : NoRefTx ref (updateTxStatus l i s) := by
  intro t ht
  rcases List.mem_map.mp ht with ⟨u, hu, heq⟩
  subst heq
  by_cases hid : (u.id == i) = true
  · simp only [hid, if_true]
    exact h u hu
  · simp only [hid, if_false]
    exact h u hu

lemma webhookFind_none {ref : String} {l : List Tx} (h : NoRefTx ref l) :
    findTransactionByReference l ref = none := by
  apply List.find?_eq_none.mpr
  intro t ht
  rw [(isRefTx_false_parts (h t ht)).1]
  simp

lemma pollFind_none {ref : String} {l : List Tx} (h : NoRefTx ref l) :
    pollFindTransaction l ref = none := by
  apply List.find?_eq_none.mpr
  intro t ht
  rw [(isRefTx_false_parts (h t (List.take_subset 10 l ht))).2]
  simp

lemma webhookFind_head {ref : String} {t : Tx} {rest : List Tx}
    (h : t.reference = ref) :
    findTransactionByReference (t :: rest) ref = some t := by
  unfold findTransactionByReference
  rw [List.find?_cons_of_pos]
  exact beq_iff_eq.mpr h

lemma pollFind_head {ref : String} {t : Tx} {rest : List Tx}
    (h : t.detailsRef = some ref) :
    pollFindTransaction (t :: rest) ref = some t := by
  unfold pollFindTransaction
  have h10 : (t :: rest).take 10 = t :: rest.take 9 := rfl
  rw [h10, List.find?_cons_of_pos]
  exact beq_iff_eq.mpr h

lemma push_db_of_inv0 (ref : String) (a b0 : ℚ) (st : DbState)
    (ha : 0 ≤ a) (hb : 0 ≤ b0) (hA : TwoDec a) (hB : TwoDec b0)
    (hbal : st.balance = b0) (h : Inv0 ref st) :
    Inv1 ref (b0 + a) (signalStep ref a st .push) := by
  have hamt : a * 100 / 100 = a := by
    field_simp
  have hr2 : round2 (b0 + a) = b0 + a := round2_twoDec _ (hB.add hA)
  have hcred : updateWalletBalance st.balance (a * 100 / 100) ("credit") =
      .ok (b0 + a) := by
    rw [hamt, hbal, updateWalletBalance_credit b0 a ha hb, hr2]
  rcases h with hno | ⟨t, rest, htxs, ht1, ht2, hts, hrest⟩
  · have hfind : findTransactionByReference st.txs ref = none := webhookFind_none hno
    show Inv1 ref (b0 + a) (webhookHandler _ _ _ _ _ _ _ _).db
    unfold webhookHandler
    simp only [bne_self_eq_false, Bool.false_eq_true, if_false, Bool.not_true, hfind, hcred]
    exact ⟨⟨mkSuccessTx st.nextId ref (a * 100 / 100), st.txs, rfl, rfl, rfl, rfl, hno⟩, rfl⟩
  · have hfind : findTransactionByReference st.txs ref = some t := by
      rw [htxs]; exact webhookFind_head ht1
    have hstat : (t.status == "success") = false := beq_eq_false_iff_ne.mpr hts
    show Inv1 ref (b0 + a) (webhookHandler _ _ _ _ _ _ _ _).db
    unfold webhookHandler
    simp only [bne_self_eq_false, Bool.false_eq_true, if_false, Bool.not_true, hfind,
      hstat, hcred]
    refine ⟨⟨{ t with status := ("success") }, updateTxStatus rest t.id ("success"),
      ?_, ht1, ht2, rfl, NoRefTx_updateTxStatus t.id ("success") hrest⟩, rfl⟩
    rw [htxs]
    unfold updateTxStatus
    simp

lemma poll_db_of_inv0 (ref : String) (a b0 : ℚ) (st : DbState)
    (ha : 0 ≤ a) (hb : 0 ≤ b0) (hA : TwoDec a) (hB : TwoDec b0)
    (hbal : st.balance = b0) (h : Inv0 ref st) :
    Inv1 ref (b0 + a) (signalStep ref a st .poll) := by
  have hr2 : round2 (b0 + a) = b0 + a := round2_twoDec _ (hB.add hA)
  have hcred : updateWalletBalance st.balance a ("credit") = .ok (b0 + a) := by
    rw [hbal, updateWalletBalance_credit b0 a ha hb, hr2]
  rcases h with hno | ⟨t, rest, htxs, ht1, ht2, hts, hrest⟩
  · have hfind : pollFindTransaction st.txs ref = none := pollFind_none hno
    show Inv1 ref (b0 + a) (pollTick _ _ _ _ _ _).db
    unfold pollTick pollTickTail
    simp only [hfind, hcred, if_pos]
    simp only [beq_self_eq_true, if_true]
    norm_num
    exact ⟨⟨mkSuccessTx st.nextId ref a, st.txs, rfl, rfl, rfl, rfl, hno⟩, rfl⟩
  · have hfind : pollFindTransaction st.txs ref = some t := by
      rw [htxs]; exact pollFind_head ht2
    have hstat : (t.status == "success") = false := beq_eq_false_iff_ne.mpr hts
    show Inv1 ref (b0 + a) (pollTick _ _ _ _ _ _).db
    unfold pollTick pollTickTail
    simp only [beq_self_eq_true, if_true, hfind, hstat, Bool.false_eq_true, if_false, hcred]
    norm_num
    refine ⟨⟨{ t with status := ("success") }, updateTxStatus rest t.id ("success"),
      ?_, ht1, ht2, rfl, NoRefTx_updateTxStatus t.id ("success") hrest⟩, rfl⟩
    rw [htxs]
    unfold updateTxStatus
    simp

lemma push_db_of_inv1 (ref : String) (a b : ℚ) (st : DbState)
    (h : Inv1 ref b st) : signalStep ref a st .push = st := by
  obtain ⟨⟨t, rest, htxs, ht1, ht2, hts, hrest⟩, hbal⟩ := h
  have hfind : findTransactionByReference st.txs ref = some t := by
    rw [htxs]; exact webhookFind_head ht1
  have hstat : (t.status == "success") = true := beq_iff_eq.mpr hts
  show (webhookHandler _ _ _ _ _ _ _ _).db = st
  unfold webhookHandler
  simp only [bne_self_eq_false, Bool.false_eq_true, if_false, Bool.not_true, hfind, hstat,
    if_true]

lemma poll_db_of_inv1 (ref : String) (a b : ℚ) (st : DbState)
    (h : Inv1 ref b st) : signalStep ref a st .poll = st := by
  obtain ⟨⟨t, rest, htxs, ht1, ht2, hts, hrest⟩, hbal⟩ := h
  have hfind : pollFindTransaction st.txs ref = some t := by
    rw [htxs]; exact pollFind_head ht2
  have hstat : (t.status == "success") = true := beq_iff_eq.mpr hts
  show (pollTick _ _ _ _ _ _).db = st
  unfold pollTick
  simp only [beq_self_eq_true, if_true, hfind, hstat]

lemma processSignals_fix (ref : String) (a b : ℚ) :
    ∀ (sigs : List Signal) (st : DbState), Inv1 ref b st →
      processSignals ref a sigs st = st := by
  intro sigs
  induction sigs with
  | nil => intro st _; rfl
  | cons s rest ih =>
    intro st h
    have hstep : signalStep ref a st s = st := by
      cases s
      · exact push_db_of_inv1 ref a b st h
      · exact poll_db_of_inv1 ref a b st h
    show List.foldl (signalStep ref a) (signalStep ref a st s) rest = st
    rw [hstep]
    exact ih st h

/-- C1.  Starting from the state a `/fund` leaves for a reference (at most
one document concerns the reference, still unsettled, sitting newest; or no
document at all), processing any non-empty sequence of webhook push
deliveries and successful poll verification ticks, in any order and one at a
time, leaves exactly one transaction for that reference — with status
`success` — and increases the wallet balance by the funded amount exactly
once. -/
theorem idempotent_crediting (ref : String) (a b0 : ℚ) (st : DbState)
    (sigs : List Signal) (hne : sigs ≠ []) (ha : 0 ≤ a) (hb : 0 ≤ b0)
    (hA : TwoDec a) (hB : TwoDec b0) (hbal : st.balance = b0)
    (hinit : Inv0 ref st) :
    ((processSignals ref a sigs st).txs.countP (fun t => isRefTx ref t)) = 1 ∧
    ((processSignals ref a sigs st).txs.countP
      (fun t => isRefTx ref t && t.status == "success")) = 1 ∧
    (processSignals ref a sigs st).balance = b0 + a := by
  cases sigs with
  | nil => exact absurd rfl hne
  | cons s rest =>
    have h1 : Inv1 ref (b0 + a) (signalStep ref a st s) := by
      cases s
      · exact push_db_of_inv0 ref a b0 st ha hb hA hB hbal hinit
      · exact poll_db_of_inv0 ref a b0 st ha hb hA hB hbal hinit
    have h2 : processSignals ref a (s :: rest) st = signalStep ref a st s := by
      show List.foldl (signalStep ref a) (signalStep ref a st s) rest = _
      exact processSignals_fix ref a (b0 + a) rest _ h1
    rw [h2]
    obtain ⟨⟨t, rest', htxs, ht1, ht2, hts, hrest⟩, hbal'⟩ := h1
    have hpt : isRefTx ref t = true := by
      unfold isRefTx
      rw [beq_iff_eq.mpr ht1]
      simp
    have hst : (t.status == "success") = true := beq_iff_eq.mpr hts
    have hz1 : rest'.countP (fun u => isRefTx ref u) = 0 := by
      apply List.countP_eq_zero.mpr
      intro u hu
      simp [hrest u hu]
    have hz2 : rest'.countP (fun u => isRefTx ref u && u.status == "success") = 0 := by
      apply List.countP_eq_zero.mpr
      intro u hu
      simp [hrest u hu]
    rw [htxs]
    refine ⟨?_, ?_, hbal'⟩
    · rw [List.countP_cons, hz1]
      simp [hpt]
    · rw [List.countP_cons, hz2]
      simp [hpt, hst]

/-- Witness for C1: a pending 500-naira funding transaction settled by a
push, then a redundant poll tick and a duplicate push. -/
theorem idempotent_crediting_witness :
    (([Signal.push, Signal.poll, Signal.push] : List Signal) ≠ [] ∧
      (0 : ℚ) ≤ 500 ∧ (0 : ℚ) ≤ 0) ∧
    (((processSignals ("FUND_1_2") 500 [Signal.push, Signal.poll, Signal.push]
        (DbState.mk 0 [Tx.mk 0 ("credit") 500 ("FUND_1_2") (some ("FUND_1_2"))
          ("pending")] 1)).txs.countP (fun t => isRefTx ("FUND_1_2") t)) = 1 ∧
      (((processSignals ("FUND_1_2") 500 [Signal.push, Signal.poll, Signal.push]
        (DbState.mk 0 [Tx.mk 0 ("credit") 500 ("FUND_1_2") (some ("FUND_1_2"))
          ("pending")] 1)).txs.countP
            (fun t => isRefTx ("FUND_1_2") t && t.status == "success")) = 1 ∧
      (processSignals ("FUND_1_2") 500 [Signal.push, Signal.poll, Signal.push]
        (DbState.mk 0 [Tx.mk 0 ("credit") 500 ("FUND_1_2") (some ("FUND_1_2"))
          ("pending")] 1)).balance = 0 + 500)) :=
  ⟨⟨by decide, by decide, by decide⟩,
    idempotent_crediting ("FUND_1_2") 500 0
      (DbState.mk 0 [Tx.mk 0 ("credit") 500 ("FUND_1_2") (some ("FUND_1_2"))
        ("pending")] 1)
      [Signal.push, Signal.poll, Signal.push] (by decide) (by decide) (by decide)
      ⟨50000, by norm_num⟩ ⟨0, by norm_num⟩ rfl
      (Or.inr ⟨Tx.mk 0 ("credit") 500 ("FUND_1_2") (some ("FUND_1_2")) ("pending"),
        [], rfl, rfl, rfl, by decide, by intro t ht; cases ht⟩)⟩

end VtuBot
